import Mathlib

/-!
Verification of the svg2pdf render core against its specification.

The definitions below are a shallow embedding of `src/render/mod.rs`
(`tree_to_stream`, `tree_to_xobject`, `render_external_image` and the
`Render` implementation for `Node`).  Collaborating modules that are not
part of the core source (the group compositor, the leaf renderers, the
conversion context helpers and the resource container) are modelled from
the specification; each such definition carries a doc comment starting
with `Modelled from the spec:` naming what is missing.

Numeric values that are `f32` in the source are embedded as rationals;
machine references (`pdf_writer::Ref`) are embedded as naturals.  The
mutable `&mut` parameters of the source are embedded by explicit state
passing: every operation returns the updated state together with an
optional error, mirroring the fact that mutations performed before an
early `?`-return persist in the caller's buffers.
-/

namespace Svg2Pdf

/-- Errors of the conversion (`crate::ConversionError`): `invalidImage` is the
variant raised by `render_external_image`; `tooMuchNesting` is the checked
save-depth failure (the StackOverflowGuard kind of the spec). -/
inductive ConversionError where
  | invalidImage
  | tooMuchNesting
deriving DecidableEq

/-- Affine transform (usvg `Transform`), in row form `[a b c d e f]`:
a point `(x, y)` is mapped to `(a*x + c*y + e, b*x + d*y + f)`. -/
structure Transform where
  a : ℚ
  b : ℚ
  c : ℚ
  d : ℚ
  e : ℚ
  f : ℚ
deriving DecidableEq

/-- Embeds `usvg::Transform::from_row`. -/
def Transform.from_row (a b c d e f : ℚ) : Transform := ⟨a, b, c, d, e, f⟩

/-- Embeds `TransformExt::to_pdf_transform`: the six-element PDF matrix. -/
def Transform.to_pdf_transform (t : Transform) : List ℚ :=
  [t.a, t.b, t.c, t.d, t.e, t.f]

/-- Modelled from the spec: accumulated transforms compose "purely
multiplicatively" (usvg `pre_concat`); `t1.mul t2` applies `t2` first, then
`t1`. -/
def Transform.mul (t1 t2 : Transform) : Transform :=
  ⟨t1.a * t2.a + t1.c * t2.b,
   t1.b * t2.a + t1.d * t2.b,
   t1.a * t2.c + t1.c * t2.d,
   t1.b * t2.c + t1.d * t2.d,
   t1.a * t2.e + t1.c * t2.f + t1.e,
   t1.b * t2.e + t1.d * t2.f + t1.f⟩

/-- Resource-dictionary names: caller-supplied byte names (the external-asset
path passes `Name(name_str.as_bytes())`) or names generated deterministically
by the core for internal objects (modelled from the spec, exact scheme not in
the core source). -/
inductive NameT where
  | bytes : List Nat → NameT
  | generated : Nat → NameT
deriving DecidableEq

/-- Content-stream operators relevant to the core: graphics-state save (`q`),
restore (`Q`), transform concatenation (`cm`), XObject invocation (`Do`), and
opaque operator blocks standing for what the path/text leaf renderers emit
(modelled from the spec; their internal save/restore pairs are balanced, so
they are abstracted as single operators). -/
inductive Op where
  | save
  | restore
  | concatMat : List ℚ → Op
  | xObj : NameT → Op
  | pathLeaf : Nat → Op
  | textLeaf : Nat → Op
deriving DecidableEq

/-- Modelled from the spec: the graphics-state nesting limit enforced by the
checked save (`ContentExt::save_state_checked`, not under src/); PDF consumers
are required to support a save-depth of 28. -/
def maxNesting : Nat := 28

/-- Content-stream buffer (`pdf_writer::Content`): the emitted operators,
together with the current save-nesting depth used by the checked save. -/
structure Content where
  ops : List Op
  depth : Nat
deriving DecidableEq

/-- Embeds `Content::new`. -/
def Content.new : Content := ⟨[], 0⟩

/-- Modelled from the spec: `ContentExt::save_state_checked` (not under src/),
"a checked graphics-state save that would exceed the nesting limit …  must be
checked explicitly (not merely attempted)": on failure nothing is emitted. -/
def Content.save_state_checked (c : Content) : Content × Option ConversionError :=
  if c.depth + 1 > maxNesting then (c, some .tooMuchNesting)
  else ({ ops := c.ops ++ [Op.save], depth := c.depth + 1 }, none)

/-- Embeds `Content::transform`: appends a `cm` operator. -/
def Content.transform (c : Content) (m : List ℚ) : Content :=
  { c with ops := c.ops ++ [Op.concatMat m] }

/-- Embeds `Content::x_object`: appends a `Do` operator. -/
def Content.x_object (c : Content) (n : NameT) : Content :=
  { c with ops := c.ops ++ [Op.xObj n] }

/-- Embeds `Content::restore_state`: appends a `Q` operator. -/
def Content.restore_state (c : Content) : Content :=
  { ops := c.ops ++ [Op.restore], depth := c.depth - 1 }

/-- Resource container (`util::resources::ResourceContainer`, not under src/).
Modelled from the spec: a scoped accumulator of named entries; the claims only
exercise the XObject category, so entries are (name, reference) pairs. -/
structure ResourceContainer where
  entries : List (NameT × Nat)
deriving DecidableEq

/-- Embeds `ResourceContainer::new`. -/
def ResourceContainer.new : ResourceContainer := ⟨[]⟩

/-- Embeds `ResourceContainer::add_external_x_object` (modelled from the spec:
registers a caller-supplied reference under a caller-chosen name). -/
def ResourceContainer.addExternalXObject (rc : ResourceContainer)
    (n : List Nat) (r : Nat) : ResourceContainer :=
  ⟨rc.entries ++ [(NameT.bytes n, r)]⟩

/-- Modelled from the spec: registration of a core-generated XObject name. -/
def ResourceContainer.addXObject (rc : ResourceContainer)
    (n : NameT) (r : Nat) : ResourceContainer :=
  ⟨rc.entries ++ [(n, r)]⟩

/-- External image descriptor (`crate::ExternalImage`): caller-chosen name
bytes, caller-owned reference, and the pixel dimensions. -/
structure ExternalImage where
  name : List Nat
  ref : Nat
  width : ℚ
  height : ℚ

/-- Image node data (`usvg::Image` as consumed by the core): the visibility
flag, the intrinsic size carried by its kind, and an identifier standing for
the pixel data handle. -/
structure ImageData where
  visible : Bool
  width : ℚ
  height : ℚ
  id : Nat

/-- Path node data: an identifier standing for the geometry and paint. -/
structure PathData where
  id : Nat

/-- Text node data: an identifier standing for the glyph content. -/
structure TextData where
  id : Nat

/-- Scene-tree node (`usvg::Node`): the tagged variant over which the
dispatcher matches.  A group carries its local transform, whether it needs
isolation, and its children; a text node additionally carries its
pre-flattened outline-path equivalent, itself a group. -/
inductive Node where
  | path : PathData → Node
  | image : ImageData → Node
  | group : Transform → Bool → List Node → Node
  | text : TextData → Transform → Bool → List Node → Node

/-- Scene tree (`usvg::Tree`): the declared canvas size plus the root group. -/
structure Tree where
  width : ℚ
  height : ℚ
  rootTransform : Transform
  rootIsolated : Bool
  rootChildren : List Node

/-- Conversion options (`crate::ConversionOptions` as read by the core):
compression flag, text-embedding flag, optional external image resolver. -/
structure Options where
  compress : Bool
  embed_text : Bool
  image_provider : Option (ImageData → Option ExternalImage)

/-- Conversion context (`util::context::Context`, not under src/): modelled
from the spec as owning the monotone reference allocator and the immutable
options. -/
structure Context where
  nextRef : Nat
  options : Options

/-- Embeds `Context::alloc_ref`: returns the next unused reference. -/
def Context.alloc_ref (ctx : Context) : Nat × Context :=
  (ctx.nextRef, { ctx with nextRef := ctx.nextRef + 1 })

/-- Compile-time feature set of the crate: whether the image and text leaf
renderers are compiled in (`cfg(feature = "image")`, `cfg(feature = "text")`). -/
structure Features where
  image : Bool
  text : Bool

/-- Embeds `usvg::Size::from_wh` as used by `render_external_image`: defined
exactly for positive (finite) dimensions. -/
def sizeFromWh (w h : ℚ) : Option (ℚ × ℚ) :=
  if 0 < w ∧ 0 < h then some (w, h) else none

/-- Continuation byte of a UTF-8 sequence. -/
def contByte (b : Nat) : Bool := 0x80 ≤ b && b ≤ 0xBF

/-- Embeds the validity check of `String::from_utf8` on a byte list
(RFC 3629 well-formedness, the exact condition under which the source's
`String::from_utf8(ext.name)` succeeds). -/
def validUtf8 : List Nat → Bool
  | [] => true
  | b :: rest =>
    if b ≤ 0x7F then validUtf8 rest
    else if 0xC2 ≤ b && b ≤ 0xDF then
      match rest with
      | b1 :: rest2 => contByte b1 && validUtf8 rest2
      | [] => false
    else if b == 0xE0 then
      match rest with
      | b1 :: b2 :: rest3 =>
        (0xA0 ≤ b1 && b1 ≤ 0xBF) && contByte b2 && validUtf8 rest3
      | _ => false
    else if (0xE1 ≤ b && b ≤ 0xEC) || b == 0xEE || b == 0xEF then
      match rest with
      | b1 :: b2 :: rest3 => contByte b1 && contByte b2 && validUtf8 rest3
      | _ => false
    else if b == 0xED then
      match rest with
      | b1 :: b2 :: rest3 =>
        (0x80 ≤ b1 && b1 ≤ 0x9F) && contByte b2 && validUtf8 rest3
      | _ => false
    else if b == 0xF0 then
      match rest with
      | b1 :: b2 :: b3 :: rest4 =>
        (0x90 ≤ b1 && b1 ≤ 0xBF) && contByte b2 && contByte b3 && validUtf8 rest4
      | _ => false
    else if 0xF1 ≤ b && b ≤ 0xF3 then
      match rest with
      | b1 :: b2 :: b3 :: rest4 =>
        contByte b1 && contByte b2 && contByte b3 && validUtf8 rest4
      | _ => false
    else if b == 0xF4 then
      match rest with
      | b1 :: b2 :: b3 :: rest4 =>
        (0x80 ≤ b1 && b1 ≤ 0x8F) && contByte b2 && contByte b3 && validUtf8 rest4
      | _ => false
    else false

/-- Embeds `render_external_image` (src/render/mod.rs, lines 78–116).  The
chunk and the context are not parameters, mirroring the source signature:
the function can only touch the content stream and the resource container.
The steps, in source order: visibility early-return, `Size::from_wh` check,
UTF-8 name check, registration, checked save, placement transform, XObject
invocation, restore. -/
def renderExternalImage (image : ImageData) (ext : ExternalImage)
    (content : Content) (rc : ResourceContainer) :
    Content × ResourceContainer × Option ConversionError :=
  if image.visible = false then (content, rc, none)
  else
    match sizeFromWh ext.width ext.height with
    | none => (content, rc, some .invalidImage)
    | some image_size =>
      if validUtf8 ext.name then
        let rc1 := rc.addExternalXObject ext.name ext.ref
        match content.save_state_checked with
        | (c1, some e) => (c1, rc1, some e)
        | (c1, none) =>
          let c2 := c1.transform
            (Transform.from_row image_size.1 0 0 (-image_size.2) 0
              image_size.2).to_pdf_transform
          let c3 := c2.x_object (NameT.bytes ext.name)
          (c3.restore_state, rc1, none)
      else (content, rc, some .invalidImage)

/-- Stored stream object produced by `Context::finish_content` (modelled from
the spec: serializes an in-progress buffer, applying flate-style compression
iff the compression option is set). -/
structure StoredStream where
  ops : List Op
  compressed : Bool
deriving DecidableEq

/-- Modelled from the spec: `Context::finish_content` (not under src/). -/
def finish_content (compress : Bool) (c : Content) : StoredStream :=
  ⟨c.ops, compress⟩

/-- Stream filter declared on a form XObject (`pdf_writer::Filter`). -/
inductive PdfFilter where
  | flateDecode
deriving DecidableEq

/-- Form XObject as written by `tree_to_xobject`: reference, stored stream,
bounding box, placement matrix, optional filter, resource dictionary. -/
structure FormXObj where
  ref : Nat
  stream : StoredStream
  bbox : List ℚ
  matrix : List ℚ
  filter : Option PdfFilter
  resources : List (NameT × Nat)
deriving DecidableEq

/-- Objects inserted into the append-only chunk: internally encoded images and
nested isolated-group form objects (both modelled from the spec, their
renderers are not under src/), and the top-level form XObject written by
`tree_to_xobject`. -/
inductive PdfObject where
  | imageObj : Nat → Nat → PdfObject
  | groupObj : Nat → List Op → List (NameT × Nat) → PdfObject
  | formObj : FormXObj → PdfObject
deriving DecidableEq

/-- Render state: the four `&mut` channels threaded through the recursion
(chunk, content stream, context, resource container) plus the warning log
(standing for the `log` crate's side channel). -/
structure RState where
  chunk : List PdfObject
  content : Content
  ctx : Context
  rc : ResourceContainer
  log : List String

/-- Warning logged when the image feature is compiled out (src line 168). -/
def imageFeatureWarn : String :=
  "Failed convert image because the image feature was disabled. Skipping."

/-- Warning logged when the text feature is compiled out (src line 190). -/
def textFeatureWarn : String :=
  "Failed convert text because the text feature was disabled. Skipping."

/-- Modelled from the spec: the path leaf renderer (`path::render`, not under
src/) emits operators for the geometry under the accumulated transform; its
internal save/restore pairs are balanced, so it is abstracted as one opaque
operator and no other state change. -/
def pathRender (p : PathData) (st : RState) : RState × Option ConversionError :=
  ({ st with content :=
      { st.content with ops := st.content.ops ++ [Op.pathLeaf p.id] } }, none)

/-- Modelled from the spec: the text leaf renderer (`text::render`, feature
"text", not under src/), abstracted as one opaque operator. -/
def textRender (td : TextData) (st : RState) : RState × Option ConversionError :=
  ({ st with content :=
      { st.content with ops := st.content.ops ++ [Op.textLeaf td.id] } }, none)

/-- Modelled from the spec: the internal image leaf renderer (`image::render`,
feature "image", not under src/): nothing for an invisible image; otherwise it
allocates a reference, stores the encoded image object in the chunk, registers
a deterministically generated name, and emits the unit-square placement
sequence (save, scale to width × height with vertical flip, XObject
invocation, restore). -/
def imageRender (img : ImageData) (st : RState) : RState × Option ConversionError :=
  if img.visible = false then (st, none)
  else
    match st.ctx.alloc_ref with
    | (r, ctx1) =>
      let chunk1 := st.chunk ++ [PdfObject.imageObj r img.id]
      let rc1 := st.rc.addXObject (NameT.generated r) r
      match st.content.save_state_checked with
      | (c1, some e) =>
        ({ st with chunk := chunk1, ctx := ctx1, rc := rc1, content := c1 }, some e)
      | (c1, none) =>
        let c2 := c1.transform
          (Transform.from_row img.width 0 0 (-img.height) 0
            img.height).to_pdf_transform
        let c3 := (c2.x_object (NameT.generated r)).restore_state
        ({ st with chunk := chunk1, ctx := ctx1, rc := rc1, content := c3 }, none)

mutual

/-- Embeds the `Render` implementation for `Node` (src/render/mod.rs lines
129–195), with the compile-time feature set `F` made explicit: path and group
delegate to their renderers; an image node is first offered to the external
resolver and, on substitution, handled by `render_external_image`; a text node
is rendered by the text leaf renderer iff text embedding is enabled and
otherwise via its flattened outline group. -/
def renderNode (F : Features) (n : Node) (st : RState) (acc : Transform) :
    RState × Option ConversionError :=
  match n with
  | .path p => pathRender p st
  | .group t iso ch => renderGroup F t iso ch st acc
  | .image img =>
    match Option.bind st.ctx.options.image_provider (fun p => p img) with
    | some ext =>
      match renderExternalImage img ext st.content st.rc with
      | (c, rc1, e) => ({ st with content := c, rc := rc1 }, e)
    | none =>
      if F.image then imageRender img st
      else ({ st with log := st.log ++ [imageFeatureWarn] }, none)
  | .text td t iso ch =>
    if F.text then
      if st.ctx.options.embed_text then textRender td st
      else renderGroup F t iso ch st acc
    else ({ st with log := st.log ++ [textFeatureWarn] }, none)
termination_by (sizeOf n, 1)

/-- Modelled from the spec: the Group Compositor (`group::render`, not under
src/).  Inline path: checked save, apply the local transform, recurse into the
children with the pre-multiplied accumulated transform, matching restore.
Isolation path: allocate a reference, recurse into a fresh content buffer and
fresh resource container, store the finished object in the chunk, register a
generated name in the parent container, and emit the placement sequence into
the parent stream.  Errors from children propagate unchanged.  (The bounding
box computed for an isolated object is not modelled; no claim depends on
it.) -/
def renderGroup (F : Features) (t : Transform) (iso : Bool) (ch : List Node)
    (st : RState) (acc : Transform) : RState × Option ConversionError :=
  let acc1 := acc.mul t
  if iso then
    match st.ctx.alloc_ref with
    | (r, ctx1) =>
      match renderNodes F ch ⟨st.chunk, Content.new, ctx1,
          ResourceContainer.new, st.log⟩ acc1 with
      | (ist, some e) =>
        (⟨ist.chunk, st.content, ist.ctx, st.rc, ist.log⟩, some e)
      | (ist, none) =>
        let chunk1 := ist.chunk ++ [PdfObject.groupObj r ist.content.ops ist.rc.entries]
        let rc1 := st.rc.addXObject (NameT.generated r) r
        match st.content.save_state_checked with
        | (c1, some e) => (⟨chunk1, c1, ist.ctx, rc1, ist.log⟩, some e)
        | (c1, none) =>
          let c2 := ((c1.transform t.to_pdf_transform).x_object
            (NameT.generated r)).restore_state
          (⟨chunk1, c2, ist.ctx, rc1, ist.log⟩, none)
  else
    match st.content.save_state_checked with
    | (c1, some e) => ({ st with content := c1 }, some e)
    | (c1, none) =>
      match renderNodes F ch
          { st with content := c1.transform t.to_pdf_transform } acc1 with
      | (st2, some e) => (st2, some e)
      | (st2, none) => ({ st2 with content := st2.content.restore_state }, none)
termination_by (sizeOf ch, 2)

/-- Modelled from the spec: sibling traversal in tree order; a child's error
aborts the traversal and propagates. -/
def renderNodes (F : Features) (l : List Node) (st : RState) (acc : Transform) :
    RState × Option ConversionError :=
  match l with
  | [] => (st, none)
  | n :: ns =>
    match renderNode F n st acc with
    | (st1, some e) => (st1, some e)
    | (st1, none) => renderNodes F ns st1 acc
termination_by (sizeOf l, 0)

end

/-- Embeds `tree_to_stream` (src/render/mod.rs lines 24–43): checked save,
one-time axis flip from the PDF to the SVG coordinate system, recursive
dispatch over the tree root with the flip as the accumulated transform,
matching restore.  Note that the restore is skipped when the dispatch
returns early with an error. -/
def tree_to_stream (F : Features) (tree : Tree) (st : RState) :
    RState × Option ConversionError :=
  match st.content.save_state_checked with
  | (c, some e) => ({ st with content := c }, some e)
  | (c, none) =>
    let initial_transform := Transform.from_row 1 0 0 (-1) 0 tree.height
    let c1 := c.transform initial_transform.to_pdf_transform
    match renderGroup F tree.rootTransform tree.rootIsolated tree.rootChildren
        { st with content := c1 } initial_transform with
    | (st1, some e) => (st1, some e)
    | (st1, none) => ({ st1 with content := st1.content.restore_state }, none)

/-- Embeds `tree_to_xobject` (src/render/mod.rs lines 46–71): allocate one
reference, render via `tree_to_stream` into a fresh buffer and fresh resource
container, finish the buffer into a stored stream, and wrap it as a form
XObject with the canvas bounding box, the unit-square rescaling matrix, the
FlateDecode filter iff compression is on, and the accumulated resources. -/
def tree_to_xobject (F : Features) (tree : Tree) (chunk : List PdfObject)
    (ctx : Context) (log : List String) :
    (List PdfObject × Context × List String) × Except ConversionError Nat :=
  match ctx.alloc_ref with
  | (x_ref, ctx1) =>
    match tree_to_stream F tree
        ⟨chunk, Content.new, ctx1, ResourceContainer.new, log⟩ with
    | (st, some e) => ((st.chunk, st.ctx, st.log), .error e)
    | (st, none) =>
      let stream := finish_content st.ctx.options.compress st.content
      let xobj : FormXObj :=
        { ref := x_ref
          stream := stream
          bbox := [0, 0, tree.width, tree.height]
          matrix := [1 / tree.width, 0, 0, 1 / tree.height, 0, 0]
          filter := if st.ctx.options.compress then some PdfFilter.flateDecode else none
          resources := st.rc.entries }
      ((st.chunk ++ [PdfObject.formObj xobj], st.ctx, st.log), .ok x_ref)

/-- Resolver that always declines every image node. -/
def declineAll : ImageData → Option ExternalImage := fun _ => none

/-- Replaces the external image resolver stored in a context. -/
def setProviderCtx (ctx : Context) (p : Option (ImageData → Option ExternalImage)) :
    Context :=
  { ctx with options := { ctx.options with image_provider := p } }

/-- Replaces the external image resolver stored in a render state. -/
def setProvider (st : RState) (p : Option (ImageData → Option ExternalImage)) :
    RState :=
  { st with ctx := setProviderCtx st.ctx p }

/-- Placement operator sequence for an XObject of the given pixel size: save,
the unit-square scaling with vertical flip, the XObject invocation, restore. -/
def placementOps (w h : ℚ) (n : NameT) : List Op :=
  [Op.save, Op.concatMat [w, 0, 0, -h, 0, h], Op.xObj n, Op.restore]

/-- Concrete feature set with both leaf renderers compiled in. -/
def wF : Features := ⟨true, true⟩

/-- Concrete feature set with both leaf renderers compiled out. -/
def wFOff : Features := ⟨false, false⟩

/-- Concrete identity transform. -/
def wT : Transform := Transform.from_row 1 0 0 1 0 0

/-- Concrete visible image node. -/
def wImg : ImageData := ⟨true, 10, 20, 0⟩

/-- Concrete invisible image node. -/
def wImgHidden : ImageData := ⟨false, 10, 20, 0⟩

/-- Concrete invalid external descriptor: its width is zero. -/
def wExtBad : ExternalImage := ⟨[65], 99, 0, 5⟩

/-- Concrete valid external descriptor (name "A", positive size). -/
def wExtGood : ExternalImage := ⟨[65], 99, 4, 5⟩

/-- Concrete resolver that substitutes the given descriptor for every node. -/
def wProvider (ext : ExternalImage) : Option (ImageData → Option ExternalImage) :=
  some (fun _ => some ext)

/-- Concrete context with reference counter 1 and the given resolver. -/
def wCtx (p : Option (ImageData → Option ExternalImage)) : Context :=
  ⟨1, ⟨false, true, p⟩⟩

/-- Concrete fresh render state over `wCtx`. -/
def wSt (p : Option (ImageData → Option ExternalImage)) : RState :=
  ⟨[], Content.new, wCtx p, ResourceContainer.new, []⟩

/-- Concrete state produced by dispatching the root group of an empty
100×50 tree from a fresh state: the entry-point save and axis flip followed
by the root group's own save, identity transform and restore. -/
def wSt2c : RState :=
  ⟨[], ⟨[Op.save, Op.concatMat [1, 0, 0, -1, 0, 50], Op.save,
      Op.concatMat [1, 0, 0, 1, 0, 0], Op.restore], 1⟩,
    wCtx none, ResourceContainer.new, []⟩

/-- Concrete state produced by `tree_to_stream` on an empty 100×50 tree,
starting from a fresh state whose allocator has already issued reference 1. -/
def wStF : RState :=
  ⟨[], ⟨[Op.save, Op.concatMat [1, 0, 0, -1, 0, 50], Op.save,
      Op.concatMat [1, 0, 0, 1, 0, 0], Op.restore, Op.restore], 0⟩,
    ⟨2, ⟨false, true, none⟩⟩, ResourceContainer.new, []⟩

theorem save_state_checked_ok (c c1 : Content)
    (h : c.save_state_checked = (c1, none)) :
    c1 = ⟨c.ops ++ [Op.save], c.depth + 1⟩ ∧ c.depth + 1 ≤ maxNesting := by
  unfold Content.save_state_checked at h
  split at h
  · simp at h
  · rename_i hgt
    injection h with h1 h2
    exact ⟨h1.symm, by omega⟩

theorem renderExternalImage_ok (img : ImageData) (ext : ExternalImage)
    (content : Content) (rc : ResourceContainer) (c' : Content)
    (rc' : ResourceContainer)
    (h : renderExternalImage img ext content rc = (c', rc', none)) :
    c'.depth = content.depth ∧
    ∃ δ, c'.ops = content.ops ++ δ ∧ δ.count Op.save = δ.count Op.restore := by
  unfold renderExternalImage at h
  split at h
  · injection h with h1 h23
    injection h23 with h2 h3
    subst h1; subst h2
    exact ⟨rfl, [], by simp⟩
  · split at h
    · simp at h
    · rename_i image_size hsz
      split at h
      · split at h
        · simp at h
        · rename_i hsave
          obtain ⟨hc1, hle⟩ := save_state_checked_ok _ _ hsave
          subst hc1
          injection h with h1 h23
          injection h23 with h2 h3
          subst h1; subst h2
          refine ⟨by simp [Content.restore_state, Content.transform,
            Content.x_object], ?_⟩
          exact ⟨[Op.save,
            Op.concatMat (Transform.from_row image_size.1 0 0 (-image_size.2) 0
              image_size.2).to_pdf_transform,
            Op.xObj (NameT.bytes ext.name), Op.restore],
            by simp [Content.restore_state, Content.transform, Content.x_object],
            by simp⟩
      · simp at h

theorem imageRender_ok (img : ImageData) (st st' : RState)
    (h : imageRender img st = (st', none)) :
    st'.content.depth = st.content.depth ∧
    ∃ δ, st'.content.ops = st.content.ops ++ δ ∧
      δ.count Op.save = δ.count Op.restore := by
  unfold imageRender at h
  split at h
  · injection h with h1 h2
    subst h1
    exact ⟨rfl, [], by simp⟩
  · simp only [Context.alloc_ref] at h
    split at h
    · simp at h
    · rename_i hsave
      obtain ⟨hc1, hle⟩ := save_state_checked_ok _ _ hsave
      subst hc1
      injection h with h1 h2
      subst h1
      refine ⟨by simp [Content.restore_state, Content.transform,
        Content.x_object], ?_⟩
      exact ⟨[Op.save,
        Op.concatMat (Transform.from_row img.width 0 0 (-img.height) 0
          img.height).to_pdf_transform,
        Op.xObj (NameT.generated st.ctx.nextRef), Op.restore],
        by simp [Content.restore_state, Content.transform, Content.x_object],
        by simp⟩

mutual

theorem balance_node (F : Features) (n : Node) (st : RState) (acc : Transform)
    (st' : RState) (h : renderNode F n st acc = (st', none)) :
    st'.content.depth = st.content.depth ∧
    ∃ δ, st'.content.ops = st.content.ops ++ δ ∧
      δ.count Op.save = δ.count Op.restore := by
  cases n with
  | path p =>
    unfold renderNode pathRender at h
    injection h with h1 h2
    subst h1
    exact ⟨rfl, [Op.pathLeaf p.id], rfl, by simp⟩
  | image img =>
    unfold renderNode at h
    split at h
    · split at h
      · rename_i c rc1 e he
        cases e with
        | some err => simp at h
        | none =>
          injection h with h1 h2
          subst h1
          simpa using renderExternalImage_ok img _ st.content st.rc c rc1 he
    · split at h
      · exact imageRender_ok img st st' h
      · injection h with h1 h2
        subst h1
        exact ⟨rfl, [], by simp⟩
  | group t iso ch =>
    unfold renderNode at h
    exact balance_group F t iso ch st acc st' h
  | text td t iso ch =>
    unfold renderNode at h
    split at h
    · split at h
      · unfold textRender at h
        injection h with h1 h2
        subst h1
        exact ⟨rfl, [Op.textLeaf td.id], rfl, by simp⟩
      · exact balance_group F t iso ch st acc st' h
    · injection h with h1 h2
      subst h1
      exact ⟨rfl, [], by simp⟩
termination_by (sizeOf n, 1)

theorem balance_group (F : Features) (t : Transform) (iso : Bool)
    (ch : List Node) (st : RState) (acc : Transform) (st' : RState)
    (h : renderGroup F t iso ch st acc = (st', none)) :
    st'.content.depth = st.content.depth ∧
    ∃ δ, st'.content.ops = st.content.ops ++ δ ∧
      δ.count Op.save = δ.count Op.restore := by
  unfold renderGroup at h
  split at h
  · simp only [Context.alloc_ref] at h
    split at h
    · simp at h
    · split at h
      · simp at h
      · rename_i hsave
        obtain ⟨hc1, hle⟩ := save_state_checked_ok _ _ hsave
        subst hc1
        injection h with h1 h2
        subst h1
        refine ⟨by simp [Content.restore_state, Content.transform,
          Content.x_object], ?_⟩
        exact ⟨[Op.save, Op.concatMat t.to_pdf_transform,
          Op.xObj (NameT.generated st.ctx.nextRef), Op.restore],
          by simp [Content.restore_state, Content.transform, Content.x_object],
          by simp⟩
  · split at h
    · simp at h
    · rename_i hsave
      obtain ⟨hc1, hle⟩ := save_state_checked_ok _ _ hsave
      subst hc1
      simp only [] at h
      split at h
      · simp at h
      · rename_i st2 hrn
        injection h with h1 h2
        subst h1
        obtain ⟨hd, δch, hops, hcnt⟩ := balance_nodes F ch _ (acc.mul t) st2 hrn
        constructor
        · simp only [Content.restore_state]
          simp only [Content.transform] at hd
          omega
        · refine ⟨[Op.save, Op.concatMat t.to_pdf_transform] ++ δch ++
            [Op.restore], ?_, ?_⟩
          · simp only [Content.restore_state, hops, Content.transform]
            simp
          · simp [List.count_append, hcnt]
termination_by (sizeOf ch, 2)

theorem balance_nodes (F : Features) (l : List Node) (st : RState)
    (acc : Transform) (st' : RState)
    (h : renderNodes F l st acc = (st', none)) :
    st'.content.depth = st.content.depth ∧
    ∃ δ, st'.content.ops = st.content.ops ++ δ ∧
      δ.count Op.save = δ.count Op.restore := by
  cases l with
  | nil =>
    unfold renderNodes at h
    injection h with h1 h2
    subst h1
    exact ⟨rfl, [], by simp⟩
  | cons n ns =>
    unfold renderNodes at h
    split at h
    · simp at h
    · rename_i st1 hn
      obtain ⟨hd1, δ1, hops1, hcnt1⟩ := balance_node F n st acc st1 hn
      obtain ⟨hd2, δ2, hops2, hcnt2⟩ := balance_nodes F ns st1 acc st' h
      refine ⟨by omega, δ1 ++ δ2, ?_, ?_⟩
      · simp [hops2, hops1]
      · simp [List.count_append, hcnt1, hcnt2]
termination_by (sizeOf l, 0)

end

@[simp] theorem sp_chunk (st : RState) (p : Option (ImageData → Option ExternalImage)) :
    (setProvider st p).chunk = st.chunk := rfl

@[simp] theorem sp_content (st : RState) (p : Option (ImageData → Option ExternalImage)) :
    (setProvider st p).content = st.content := rfl

@[simp] theorem sp_rc (st : RState) (p : Option (ImageData → Option ExternalImage)) :
    (setProvider st p).rc = st.rc := rfl

@[simp] theorem sp_log (st : RState) (p : Option (ImageData → Option ExternalImage)) :
    (setProvider st p).log = st.log := rfl

@[simp] theorem sp_ctx (st : RState) (p : Option (ImageData → Option ExternalImage)) :
    (setProvider st p).ctx = setProviderCtx st.ctx p := rfl

@[simp] theorem spc_nextRef (ctx : Context) (p : Option (ImageData → Option ExternalImage)) :
    (setProviderCtx ctx p).nextRef = ctx.nextRef := rfl

@[simp] theorem spc_provider (ctx : Context) (p : Option (ImageData → Option ExternalImage)) :
    (setProviderCtx ctx p).options.image_provider = p := rfl

@[simp] theorem spc_embed (ctx : Context) (p : Option (ImageData → Option ExternalImage)) :
    (setProviderCtx ctx p).options.embed_text = ctx.options.embed_text := rfl

@[simp] theorem spc_compress (ctx : Context) (p : Option (ImageData → Option ExternalImage)) :
    (setProviderCtx ctx p).options.compress = ctx.options.compress := rfl

theorem pathRender_setProvider (p : PathData) (st : RState)
    (q : Option (ImageData → Option ExternalImage)) :
    pathRender p (setProvider st q) =
      (setProvider (pathRender p st).1 q, (pathRender p st).2) := rfl

theorem textRender_setProvider (td : TextData) (st : RState)
    (q : Option (ImageData → Option ExternalImage)) :
    textRender td (setProvider st q) =
      (setProvider (textRender td st).1 q, (textRender td st).2) := rfl

theorem imageRender_setProvider (img : ImageData) (st : RState)
    (q : Option (ImageData → Option ExternalImage)) :
    imageRender img (setProvider st q) =
      (setProvider (imageRender img st).1 q, (imageRender img st).2) := by
  obtain ⟨chunk, content, ⟨nextRef, ⟨compress, embed, prov⟩⟩, rc, log⟩ := st
  simp only [imageRender, setProvider, setProviderCtx, Context.alloc_ref]
  split
  · rfl
  · split
    · rfl
    · rfl

@[simp] theorem sp_update_log (st : RState) (p : Option (ImageData → Option ExternalImage))
    (l : List String) :
    { setProvider st p with log := l } = setProvider { st with log := l } p := rfl

@[simp] theorem sp_update_content (st : RState)
    (p : Option (ImageData → Option ExternalImage)) (c : Content) :
    { setProvider st p with content := c } = setProvider { st with content := c } p := rfl

@[simp] theorem sp_update_content_rc (st : RState)
    (p : Option (ImageData → Option ExternalImage)) (c : Content)
    (r : ResourceContainer) :
    { setProvider st p with content := c, rc := r } =
      setProvider { st with content := c, rc := r } p := rfl

@[simp] theorem spc_update_nextRef (ctx : Context)
    (p : Option (ImageData → Option ExternalImage)) (k : Nat) :
    { setProviderCtx ctx p with nextRef := k } =
      setProviderCtx { ctx with nextRef := k } p := rfl

@[simp] theorem mk_ctx_setProviderCtx (a : List PdfObject) (b : Content)
    (cx : Context) (d : ResourceContainer) (e : List String)
    (q : Option (ImageData → Option ExternalImage)) :
    RState.mk a b (setProviderCtx cx q) d e = setProvider (RState.mk a b cx d e) q := rfl

mutual

theorem prov_node (F : Features) (n : Node) (st : RState) (acc : Transform) :
    ∃ r e,
      renderNode F n (setProvider st none) acc = (setProvider r none, e) ∧
      renderNode F n (setProvider st (some declineAll)) acc =
        (setProvider r (some declineAll), e) := by
  cases n with
  | path p =>
    exact ⟨(pathRender p st).1, (pathRender p st).2,
      by simp only [renderNode]; exact pathRender_setProvider p st none,
      by simp only [renderNode]; exact pathRender_setProvider p st (some declineAll)⟩
  | image img =>
    cases hF : F.image with
    | true =>
      refine ⟨(imageRender img st).1, (imageRender img st).2, ?_, ?_⟩ <;>
        simp only [renderNode, sp_ctx, spc_provider, Option.bind, declineAll, hF,
          if_true, imageRender_setProvider]
    | false =>
      refine ⟨{ st with log := st.log ++ [imageFeatureWarn] }, none, ?_, ?_⟩ <;>
        simp [renderNode, Option.bind, declineAll, hF]
  | group t iso ch =>
    obtain ⟨r, e, h1, h2⟩ := prov_group F t iso ch st acc
    exact ⟨r, e, by simp only [renderNode]; exact h1,
      by simp only [renderNode]; exact h2⟩
  | text td t iso ch =>
    cases hF : F.text with
    | true =>
      cases hE : st.ctx.options.embed_text with
      | true =>
        refine ⟨(textRender td st).1, (textRender td st).2, ?_, ?_⟩ <;>
          · simp only [renderNode, sp_ctx, spc_embed, hF, hE, if_true]
            exact textRender_setProvider td st _
      | false =>
        obtain ⟨r, e, h1, h2⟩ := prov_group F t iso ch st acc
        refine ⟨r, e, ?_, ?_⟩ <;>
          simp only [renderNode, sp_ctx, spc_embed, hF, hE, if_true,
            Bool.false_eq_true, if_false, h1, h2]
    | false =>
      refine ⟨{ st with log := st.log ++ [textFeatureWarn] }, none, ?_, ?_⟩ <;>
        simp [renderNode, hF]
termination_by (sizeOf n, 1)

theorem prov_group (F : Features) (t : Transform) (iso : Bool) (ch : List Node)
    (st : RState) (acc : Transform) :
    ∃ r e,
      renderGroup F t iso ch (setProvider st none) acc = (setProvider r none, e) ∧
      renderGroup F t iso ch (setProvider st (some declineAll)) acc =
        (setProvider r (some declineAll), e) := by
  cases iso with
  | true =>
    obtain ⟨ir, ie, h1, h2⟩ := prov_nodes F ch
      ⟨st.chunk, Content.new, { st.ctx with nextRef := st.ctx.nextRef + 1 },
        ResourceContainer.new, st.log⟩ (acc.mul t)
    cases ie with
    | some err =>
      refine ⟨⟨ir.chunk, st.content, ir.ctx, st.rc, ir.log⟩, some err, ?_, ?_⟩ <;>
        simp [renderGroup, Context.alloc_ref, h1, h2]
    | none =>
      rcases hsv : st.content.save_state_checked with ⟨c1, e1⟩
      cases e1 with
      | some err =>
        refine ⟨⟨ir.chunk ++ [PdfObject.groupObj st.ctx.nextRef ir.content.ops
            ir.rc.entries], c1, ir.ctx,
            st.rc.addXObject (NameT.generated st.ctx.nextRef) st.ctx.nextRef,
            ir.log⟩, some err, ?_, ?_⟩ <;>
          simp [renderGroup, Context.alloc_ref, h1, h2, hsv]
      | none =>
        refine ⟨⟨ir.chunk ++ [PdfObject.groupObj st.ctx.nextRef ir.content.ops
            ir.rc.entries],
            ((c1.transform t.to_pdf_transform).x_object
              (NameT.generated st.ctx.nextRef)).restore_state, ir.ctx,
            st.rc.addXObject (NameT.generated st.ctx.nextRef) st.ctx.nextRef,
            ir.log⟩, none, ?_, ?_⟩ <;>
          simp [renderGroup, Context.alloc_ref, h1, h2, hsv]
  | false =>
    rcases hsv : st.content.save_state_checked with ⟨c1, e1⟩
    cases e1 with
    | some err =>
      refine ⟨{ st with content := c1 }, some err, ?_, ?_⟩ <;>
        simp [renderGroup, hsv]
    | none =>
      obtain ⟨ir, ie, h1, h2⟩ := prov_nodes F ch
        { st with content := c1.transform t.to_pdf_transform } (acc.mul t)
      cases ie with
      | some err =>
        refine ⟨ir, some err, ?_, ?_⟩ <;> simp [renderGroup, hsv, h1, h2]
      | none =>
        refine ⟨{ ir with content := ir.content.restore_state }, none, ?_, ?_⟩ <;>
          simp [renderGroup, hsv, h1, h2]
termination_by (sizeOf ch, 2)

theorem prov_nodes (F : Features) (l : List Node) (st : RState) (acc : Transform) :
    ∃ r e,
      renderNodes F l (setProvider st none) acc = (setProvider r none, e) ∧
      renderNodes F l (setProvider st (some declineAll)) acc =
        (setProvider r (some declineAll), e) := by
  cases l with
  | nil => exact ⟨st, none, by simp [renderNodes], by simp [renderNodes]⟩
  | cons n ns =>
    obtain ⟨r1, e1, h1, h2⟩ := prov_node F n st acc
    cases e1 with
    | some err =>
      exact ⟨r1, some err, by simp [renderNodes, h1], by simp [renderNodes, h2]⟩
    | none =>
      obtain ⟨r2, e2, g1, g2⟩ := prov_nodes F ns r1 acc
      exact ⟨r2, e2, by simp [renderNodes, h1, g1], by simp [renderNodes, h2, g2]⟩
termination_by (sizeOf l, 0)

end

theorem save_state_checked_err (c c1 : Content) (e : ConversionError)
    (h : c.save_state_checked = (c1, some e)) :
    c1 = c ∧ e = ConversionError.tooMuchNesting := by
  unfold Content.save_state_checked at h
  split at h
  · injection h with h1 h2
    injection h2 with h3
    exact ⟨h1.symm, h3.symm⟩
  · simp at h

theorem renderExternalImage_bad (img : ImageData) (ext : ExternalImage)
    (content : Content) (rc : ResourceContainer)
    (hv : img.visible = true)
    (hbad : ¬(0 < ext.width ∧ 0 < ext.height) ∨ validUtf8 ext.name = false) :
    renderExternalImage img ext content rc =
      (content, rc, some ConversionError.invalidImage) := by
  unfold renderExternalImage
  rw [if_neg (by simp [hv])]
  by_cases hsz : 0 < ext.width ∧ 0 < ext.height
  · rw [show sizeFromWh ext.width ext.height = some (ext.width, ext.height) from by
      simp [sizeFromWh, hsz]]
    have hn : validUtf8 ext.name = false := by
      rcases hbad with hbad | hbad
      · exact absurd hsz hbad
      · exact hbad
    simp [hn]
  · rw [show sizeFromWh ext.width ext.height = none from by simp [sizeFromWh, hsz]]

theorem renderExternalImage_success (img : ImageData) (ext : ExternalImage)
    (content : Content) (rc : ResourceContainer)
    (hv : img.visible = true) (hw : 0 < ext.width) (hh : 0 < ext.height)
    (hn : validUtf8 ext.name = true) (hd : content.depth < maxNesting) :
    renderExternalImage img ext content rc =
      (⟨content.ops ++ placementOps ext.width ext.height (NameT.bytes ext.name),
        content.depth⟩,
       ⟨rc.entries ++ [(NameT.bytes ext.name, ext.ref)]⟩, none) := by
  have hsv : content.save_state_checked =
      (⟨content.ops ++ [Op.save], content.depth + 1⟩, none) := by
    unfold Content.save_state_checked
    rw [if_neg (by omega)]
  simp [renderExternalImage, hv, hn, sizeFromWh, hw, hh, hsv, Content.transform,
    Content.x_object, Content.restore_state, ResourceContainer.addExternalXObject,
    placementOps, Transform.from_row, Transform.to_pdf_transform]

theorem imageRender_success (img : ImageData) (st : RState)
    (hv : img.visible = true) (hd : st.content.depth < maxNesting) :
    imageRender img st =
      ({ st with
          chunk := st.chunk ++ [PdfObject.imageObj st.ctx.nextRef img.id],
          ctx := { st.ctx with nextRef := st.ctx.nextRef + 1 },
          rc := ⟨st.rc.entries ++
            [(NameT.generated st.ctx.nextRef, st.ctx.nextRef)]⟩,
          content := ⟨st.content.ops ++ placementOps img.width img.height
            (NameT.generated st.ctx.nextRef), st.content.depth⟩ }, none) := by
  unfold imageRender
  rw [if_neg (by simp [hv])]
  simp only [Context.alloc_ref]
  rw [show st.content.save_state_checked =
      (⟨st.content.ops ++ [Op.save], st.content.depth + 1⟩, none) from by
    unfold Content.save_state_checked
    rw [if_neg (by omega)]]
  simp [Content.transform, Content.x_object, Content.restore_state,
    ResourceContainer.addXObject, placementOps, Transform.from_row,
    Transform.to_pdf_transform]

theorem renderExternalImage_frame (img : ImageData) (ext : ExternalImage)
    (content : Content) (rc : ResourceContainer) (c : Content)
    (rc1 : ResourceContainer) (e : Option ConversionError)
    (h : renderExternalImage img ext content rc = (c, rc1, e)) :
    (rc1 = rc ∨ rc1.entries = rc.entries ++ [(NameT.bytes ext.name, ext.ref)]) ∧
    ∃ δ, c.ops = content.ops ++ δ := by
  unfold renderExternalImage at h
  split at h
  · injection h with h1 h23
    injection h23 with h2 h3
    subst h1; subst h2
    exact ⟨Or.inl rfl, [], by simp⟩
  · split at h
    · injection h with h1 h23
      injection h23 with h2 h3
      subst h1; subst h2
      exact ⟨Or.inl rfl, [], by simp⟩
    · rename_i image_size hsz
      split at h
      · split at h
        · rename_i hsave
          injection h with h1 h23
          injection h23 with h2 h3
          subst h1; subst h2
          obtain ⟨hc, -⟩ := save_state_checked_err _ _ _ hsave
          subst hc
          exact ⟨Or.inr rfl, [], by simp⟩
        · rename_i hsave
          obtain ⟨hc1, -⟩ := save_state_checked_ok _ _ hsave
          subst hc1
          injection h with h1 h23
          injection h23 with h2 h3
          subst h1; subst h2
          refine ⟨Or.inr rfl, [Op.save,
            Op.concatMat (Transform.from_row image_size.1 0 0 (-image_size.2) 0
              image_size.2).to_pdf_transform,
            Op.xObj (NameT.bytes ext.name), Op.restore], ?_⟩
          simp [Content.restore_state, Content.transform, Content.x_object]
      · injection h with h1 h23
        injection h23 with h2 h3
        subst h1; subst h2
        exact ⟨Or.inl rfl, [], by simp⟩

theorem prov_tts (F : Features) (tree : Tree) (st : RState) :
    ∃ r e,
      tree_to_stream F tree (setProvider st none) = (setProvider r none, e) ∧
      tree_to_stream F tree (setProvider st (some declineAll)) =
        (setProvider r (some declineAll), e) := by
  rcases hsv : st.content.save_state_checked with ⟨c1, e1⟩
  cases e1 with
  | some err =>
    refine ⟨{ st with content := c1 }, some err, ?_, ?_⟩ <;>
      simp [tree_to_stream, hsv]
  | none =>
    obtain ⟨r1, e1, g1, g2⟩ := prov_group F tree.rootTransform tree.rootIsolated
      tree.rootChildren
      { st with content :=
          c1.transform ((Transform.from_row 1 0 0 (-1) 0 tree.height).to_pdf_transform) }
      (Transform.from_row 1 0 0 (-1) 0 tree.height)
    cases e1 with
    | some err =>
      refine ⟨r1, some err, ?_, ?_⟩ <;> simp [tree_to_stream, hsv, g1, g2]
    | none =>
      refine ⟨{ r1 with content := r1.content.restore_state }, none, ?_, ?_⟩ <;>
        simp [tree_to_stream, hsv, g1, g2]

theorem prov_ttx (F : Features) (tree : Tree) (chunk : List PdfObject)
    (ctx : Context) (log : List String) :
    ∃ chunk' ctx' log' res,
      tree_to_xobject F tree chunk (setProviderCtx ctx none) log =
        ((chunk', setProviderCtx ctx' none, log'), res) ∧
      tree_to_xobject F tree chunk (setProviderCtx ctx (some declineAll)) log =
        ((chunk', setProviderCtx ctx' (some declineAll), log'), res) := by
  obtain ⟨r, e, h1, h2⟩ := prov_tts F tree
    ⟨chunk, Content.new, { ctx with nextRef := ctx.nextRef + 1 },
      ResourceContainer.new, log⟩
  cases e with
  | some err =>
    refine ⟨r.chunk, r.ctx, r.log, .error err, ?_, ?_⟩ <;>
      simp [tree_to_xobject, Context.alloc_ref, h1, h2]
  | none =>
    refine ⟨r.chunk ++ [PdfObject.formObj
        ⟨ctx.nextRef, ⟨r.content.ops, r.ctx.options.compress⟩,
         [0, 0, tree.width, tree.height],
         [1 / tree.width, 0, 0, 1 / tree.height, 0, 0],
         (if r.ctx.options.compress then some PdfFilter.flateDecode else none),
         r.rc.entries⟩], r.ctx, r.log, .ok ctx.nextRef, ?_, ?_⟩ <;>
      simp [tree_to_xobject, Context.alloc_ref, h1, h2, finish_content]

/-- C9: for every image node that is not visible, `render_external_image`
returns success immediately, before any descriptor validation: it emits no
content-stream bytes, registers nothing in the resource container, and
succeeds even when the descriptor has non-positive dimensions or a name
that is not valid UTF-8. -/
theorem c9_invisible_image_is_skipped (img : ImageData) (ext : ExternalImage)
    (content : Content) (rc : ResourceContainer) (hv : img.visible = false) :
    renderExternalImage img ext content rc = (content, rc, none) := by
  unfold renderExternalImage
  rw [if_pos hv]

/-- Witness for C9 at a concrete invisible image and a concrete descriptor
whose width is zero (it would be rejected were the image visible). -/
theorem c9_witness :
    wImgHidden.visible = false ∧
    renderExternalImage wImgHidden wExtBad Content.new ResourceContainer.new =
      (Content.new, ResourceContainer.new, none) :=
  ⟨rfl, c9_invisible_image_is_skipped wImgHidden wExtBad Content.new
    ResourceContainer.new rfl⟩

/-- C10: an image node rendered via the external-asset path never inserts an
object into the chunk and never allocates a reference: the chunk, the context
(including its allocator) and the log are unchanged, the resource container
gains at most one (name, reference) entry, and the content stream is only
appended to. -/
theorem c10_external_path_frame (F : Features) (img : ImageData)
    (ext : ExternalImage) (p : ImageData → Option ExternalImage)
    (chunk : List PdfObject) (content : Content) (ctx : Context)
    (rc : ResourceContainer) (log : List String) (acc : Transform)
    (hp : ctx.options.image_provider = some p) (he : p img = some ext) :
    (renderNode F (.image img) ⟨chunk, content, ctx, rc, log⟩ acc).1.chunk = chunk ∧
    (renderNode F (.image img) ⟨chunk, content, ctx, rc, log⟩ acc).1.ctx = ctx ∧
    (renderNode F (.image img) ⟨chunk, content, ctx, rc, log⟩ acc).1.log = log ∧
    ((renderNode F (.image img) ⟨chunk, content, ctx, rc, log⟩ acc).1.rc = rc ∨
      (renderNode F (.image img) ⟨chunk, content, ctx, rc, log⟩ acc).1.rc.entries =
        rc.entries ++ [(NameT.bytes ext.name, ext.ref)]) ∧
    ∃ δ, (renderNode F (.image img) ⟨chunk, content, ctx, rc, log⟩ acc).1.content.ops =
      content.ops ++ δ := by
  rcases her : renderExternalImage img ext content rc with ⟨c, rc1, e⟩
  obtain ⟨hrc, hδ⟩ := renderExternalImage_frame img ext content rc c rc1 e her
  have hmain : renderNode F (.image img) ⟨chunk, content, ctx, rc, log⟩ acc =
      (⟨chunk, c, ctx, rc1, log⟩, e) := by
    simp [renderNode, hp, he, her]
  rw [hmain]
  exact ⟨rfl, rfl, rfl, hrc, hδ⟩

/-- Witness for C10 at a concrete visible image with a valid descriptor. -/
theorem c10_witness :
    (renderNode wF (.image wImg)
      ⟨[], Content.new, wCtx (wProvider wExtGood), ResourceContainer.new, []⟩
      wT).1.chunk = [] ∧
    (renderNode wF (.image wImg)
      ⟨[], Content.new, wCtx (wProvider wExtGood), ResourceContainer.new, []⟩
      wT).1.ctx = wCtx (wProvider wExtGood) ∧
    (renderNode wF (.image wImg)
      ⟨[], Content.new, wCtx (wProvider wExtGood), ResourceContainer.new, []⟩
      wT).1.log = [] ∧
    ((renderNode wF (.image wImg)
      ⟨[], Content.new, wCtx (wProvider wExtGood), ResourceContainer.new, []⟩
      wT).1.rc = ResourceContainer.new ∨
     (renderNode wF (.image wImg)
      ⟨[], Content.new, wCtx (wProvider wExtGood), ResourceContainer.new, []⟩
      wT).1.rc.entries = ResourceContainer.new.entries ++
        [(NameT.bytes wExtGood.name, wExtGood.ref)]) ∧
    ∃ δ, (renderNode wF (.image wImg)
      ⟨[], Content.new, wCtx (wProvider wExtGood), ResourceContainer.new, []⟩
      wT).1.content.ops = Content.new.ops ++ δ :=
  c10_external_path_frame wF wImg wExtGood (fun _ => some wExtGood) []
    Content.new (wCtx (wProvider wExtGood)) ResourceContainer.new [] wT rfl rfl

/-- C2 counterexample: the claim quantifies over every image node, but an
INVISIBLE image node substituted with a zero-width descriptor renders
successfully (no InvalidImage error), because the visibility early-return
precedes descriptor validation. -/
theorem c2_counterexample :
    renderNode wF (.image wImgHidden) (wSt (wProvider wExtBad)) wT =
      (wSt (wProvider wExtBad), none) := by
  simp [renderNode, wSt, wCtx, wProvider, renderExternalImage, wImgHidden]

/-- C2 (amended with the visibility condition): for every VISIBLE image node
for which the resolver returns a descriptor with non-positive width or height
or a name that is not valid UTF-8, the dispatcher returns InvalidImage with
the state unchanged, and the error propagates out of the dispatcher so that
the whole conversion aborts. -/
theorem c2_invalid_descriptor_errors (F : Features) (img : ImageData)
    (ext : ExternalImage) (p : ImageData → Option ExternalImage) (ctx : Context)
    (hp : ctx.options.image_provider = some p) (he : p img = some ext)
    (hv : img.visible = true)
    (hbad : ¬(0 < ext.width ∧ 0 < ext.height) ∨ validUtf8 ext.name = false) :
    (∀ (chunk : List PdfObject) (content : Content) (rc : ResourceContainer)
      (log : List String) (acc : Transform),
      renderNode F (.image img) ⟨chunk, content, ctx, rc, log⟩ acc =
        (⟨chunk, content, ctx, rc, log⟩, some ConversionError.invalidImage)) ∧
    (∀ (w h : ℚ) (t0 : Transform) (chunk : List PdfObject) (log : List String),
      (tree_to_xobject F ⟨w, h, t0, false, [.image img]⟩ chunk ctx log).2 =
        Except.error ConversionError.invalidImage) := by
  have hext := fun content rc => renderExternalImage_bad img ext content rc hv hbad
  constructor
  · intro chunk content rc log acc
    simp [renderNode, hp, he, hext]
  · intro w h t0 chunk log
    simp [tree_to_xobject, Context.alloc_ref, tree_to_stream, Content.new,
      Content.save_state_checked, maxNesting, renderGroup, Content.transform,
      renderNodes, renderNode, hp, he, hext]

/-- Witness for C2 (amended) at a concrete visible image and the concrete
zero-width descriptor, showing the full conversion aborts. -/
theorem c2_witness :
    wImg.visible = true ∧
    (¬((0 : ℚ) < wExtBad.width ∧ (0 : ℚ) < wExtBad.height) ∨
      validUtf8 wExtBad.name = false) ∧
    (tree_to_xobject wF ⟨100, 100, wT, false, [.image wImg]⟩ []
        (wCtx (wProvider wExtBad)) []).2 =
      Except.error ConversionError.invalidImage := by
  refine ⟨rfl, Or.inl (by decide), ?_⟩
  exact (c2_invalid_descriptor_errors wF wImg wExtBad (fun _ => some wExtBad)
    (wCtx (wProvider wExtBad)) rfl rfl rfl (Or.inl (by decide))).2 100 100 wT [] []

/-- C3: for every visible image node substituted by the resolver (with a
well-formed descriptor, i.e. positive dimensions, a UTF-8 name, and the save
depth within the checked limit), the dispatcher registers the descriptor's
name and reference in the active resource container and emits save, the
transform [width, 0, 0, -height, 0, height], the XObject invocation under the
descriptor's name, and restore; the internal image renderer emits the same
placement sequence for its own name and dimensions. -/
theorem c3_substitution_placement (F : Features) (img : ImageData)
    (ext : ExternalImage) (p : ImageData → Option ExternalImage) (ctx : Context)
    (chunk : List PdfObject) (content : Content) (rc : ResourceContainer)
    (log : List String) (acc : Transform)
    (hp : ctx.options.image_provider = some p) (he : p img = some ext)
    (hv : img.visible = true) (hw : 0 < ext.width) (hh : 0 < ext.height)
    (hn : validUtf8 ext.name = true) (hd : content.depth < maxNesting) :
    renderNode F (.image img) ⟨chunk, content, ctx, rc, log⟩ acc =
      (⟨chunk,
        ⟨content.ops ++ placementOps ext.width ext.height (NameT.bytes ext.name),
         content.depth⟩,
        ctx, ⟨rc.entries ++ [(NameT.bytes ext.name, ext.ref)]⟩, log⟩, none) ∧
    (∀ st : RState, st.content.depth < maxNesting →
      imageRender img st =
        ({ st with
            chunk := st.chunk ++ [PdfObject.imageObj st.ctx.nextRef img.id],
            ctx := { st.ctx with nextRef := st.ctx.nextRef + 1 },
            rc := ⟨st.rc.entries ++
              [(NameT.generated st.ctx.nextRef, st.ctx.nextRef)]⟩,
            content := ⟨st.content.ops ++ placementOps img.width img.height
              (NameT.generated st.ctx.nextRef), st.content.depth⟩ }, none)) := by
  constructor
  · have hext := renderExternalImage_success img ext content rc hv hw hh hn hd
    simp [renderNode, hp, he, hext]
  · intro st hd2
    exact imageRender_success img st hv hd2

/-- Witness for C3 at a concrete visible image and the concrete valid
descriptor (name "A", size 4×5). -/
theorem c3_witness :
    (0 : ℚ) < wExtGood.width ∧ validUtf8 wExtGood.name = true ∧
    renderNode wF (.image wImg)
      ⟨[], Content.new, wCtx (wProvider wExtGood), ResourceContainer.new, []⟩
      wT =
      (⟨[],
        ⟨Content.new.ops ++ placementOps wExtGood.width wExtGood.height
          (NameT.bytes wExtGood.name), Content.new.depth⟩,
        wCtx (wProvider wExtGood),
        ⟨ResourceContainer.new.entries ++
          [(NameT.bytes wExtGood.name, wExtGood.ref)]⟩, []⟩, none) :=
  ⟨by decide, by decide,
    (c3_substitution_placement wF wImg wExtGood (fun _ => some wExtGood)
      (wCtx (wProvider wExtGood)) [] Content.new ResourceContainer.new [] wT
      rfl rfl rfl (by decide) (by decide) (by decide) (by decide)).1⟩

/-- C4: `tree_to_stream` performs exactly one checked save, then exactly one
axis-flip transform [1, 0, 0, -1, 0, height], then dispatches the tree root
with that flip as the accumulated transform, then emits exactly one matching
restore; the dispatch output sits between the save/flip pair and the final
restore, and is itself save/restore balanced. -/
theorem c4_stream_structure (F : Features) (tree : Tree) (st st2 : RState)
    (hd : st.content.depth < maxNesting)
    (h : renderGroup F tree.rootTransform tree.rootIsolated tree.rootChildren
        { st with content := ⟨st.content.ops ++
            [Op.save, Op.concatMat [1, 0, 0, -1, 0, tree.height]],
          st.content.depth + 1⟩ }
        (Transform.from_row 1 0 0 (-1) 0 tree.height) = (st2, none)) :
    tree_to_stream F tree st =
      ({ st2 with content := st2.content.restore_state }, none) ∧
    ∃ δ, st2.content.restore_state.ops =
        st.content.ops ++ [Op.save, Op.concatMat [1, 0, 0, -1, 0, tree.height]] ++
          δ ++ [Op.restore] ∧
      δ.count Op.save = δ.count Op.restore := by
  have hsv : st.content.save_state_checked =
      (⟨st.content.ops ++ [Op.save], st.content.depth + 1⟩, none) := by
    unfold Content.save_state_checked
    rw [if_neg (by omega)]
  have hmid : (Content.mk (st.content.ops ++ [Op.save])
        (st.content.depth + 1)).transform
      ((Transform.from_row 1 0 0 (-1) 0 tree.height).to_pdf_transform) =
      ⟨st.content.ops ++ [Op.save, Op.concatMat [1, 0, 0, -1, 0, tree.height]],
       st.content.depth + 1⟩ := by
    simp [Content.transform, Transform.from_row, Transform.to_pdf_transform]
  obtain ⟨hdq, δg, hops, hcnt⟩ := balance_group F tree.rootTransform
    tree.rootIsolated tree.rootChildren _ _ _ h
  constructor
  · simp [tree_to_stream, hsv, hmid, h]
  · refine ⟨δg, ?_, hcnt⟩
    simp only [Content.restore_state, hops]

/-- Witness for C4 on a concrete empty 100×50 tree from a fresh state. -/
theorem c4_witness :
    tree_to_stream wF ⟨100, 50, wT, false, []⟩ (wSt none) =
      ({ wSt2c with content := wSt2c.content.restore_state }, none) :=
  (c4_stream_structure wF ⟨100, 50, wT, false, []⟩ (wSt none) wSt2c (by decide)
    (by simp [renderGroup, renderNodes, Content.save_state_checked, maxNesting,
      Content.transform, Content.restore_state, wT, wSt, wCtx, wSt2c,
      Transform.from_row, Transform.to_pdf_transform, Transform.mul,
      Content.new])).1

/-- C5: `tree_to_xobject` allocates exactly one reference itself (the entry
value of the allocator, which it returns), renders the tree via
`tree_to_stream` into a fresh content buffer and a fresh resource container,
finishes that buffer into a stored stream, and wraps it as a form XObject
whose bounding box is the canvas [0, 0, width, height], whose matrix is
[1/width, 0, 0, 1/height, 0, 0], which carries the FlateDecode filter iff the
compress option is set, and which receives the container's entries. -/
theorem c5_xobject_wrapping (F : Features) (tree : Tree)
    (chunk : List PdfObject) (ctx : Context) (log : List String) (st' : RState)
    (h : tree_to_stream F tree ⟨chunk, Content.new,
        { ctx with nextRef := ctx.nextRef + 1 }, ResourceContainer.new, log⟩ =
      (st', none)) :
    tree_to_xobject F tree chunk ctx log =
      ((st'.chunk ++ [PdfObject.formObj
          ⟨ctx.nextRef, ⟨st'.content.ops, st'.ctx.options.compress⟩,
           [0, 0, tree.width, tree.height],
           [1 / tree.width, 0, 0, 1 / tree.height, 0, 0],
           (if st'.ctx.options.compress then some PdfFilter.flateDecode else none),
           st'.rc.entries⟩], st'.ctx, st'.log), Except.ok ctx.nextRef) := by
  simp [tree_to_xobject, Context.alloc_ref, h, finish_content]

/-- Witness for C5 on a concrete empty 100×50 tree and a fresh context. -/
theorem c5_witness :
    tree_to_xobject wF ⟨100, 50, wT, false, []⟩ [] (wCtx none) [] =
      ((wStF.chunk ++ [PdfObject.formObj
          ⟨(wCtx none).nextRef, ⟨wStF.content.ops, wStF.ctx.options.compress⟩,
           [0, 0, 100, 50], [1 / 100, 0, 0, 1 / 50, 0, 0],
           (if wStF.ctx.options.compress then some PdfFilter.flateDecode else none),
           wStF.rc.entries⟩], wStF.ctx, wStF.log),
        Except.ok (wCtx none).nextRef) :=
  c5_xobject_wrapping wF ⟨100, 50, wT, false, []⟩ [] (wCtx none) [] wStF
    (by simp [tree_to_stream, renderGroup, renderNodes,
      Content.save_state_checked, maxNesting, Content.transform, wT, wCtx,
      wStF, Transform.from_row, Transform.to_pdf_transform, Transform.mul,
      Content.new, Content.restore_state])

/-- C1 counterexample: on the early-return error path (a visible image child
whose external descriptor has width zero), `tree_to_stream` leaves a content
stream holding two save operators and no restore, so saves and restores are
not balanced on every control path. -/
theorem c1_counterexample :
    (tree_to_stream wF ⟨100, 100, wT, false, [Node.image wImg]⟩
        (wSt (wProvider wExtBad))).2 = some ConversionError.invalidImage ∧
    (tree_to_stream wF ⟨100, 100, wT, false, [Node.image wImg]⟩
        (wSt (wProvider wExtBad))).1.content.ops.count Op.save = 2 ∧
    (tree_to_stream wF ⟨100, 100, wT, false, [Node.image wImg]⟩
        (wSt (wProvider wExtBad))).1.content.ops.count Op.restore = 0 := by
  refine ⟨?_, ?_, ?_⟩ <;>
    simp [tree_to_stream, renderGroup, renderNodes, renderNode,
      renderExternalImage, Content.save_state_checked, maxNesting,
      Content.transform, wT, wSt, wCtx, wProvider, wImg, wExtBad, sizeFromWh,
      Transform.from_row, Transform.to_pdf_transform, Transform.mul,
      Content.new, List.count_cons]

/-- C1 (amended): on every SUCCESSFUL run of `tree_to_stream` the operators
appended to the content stream contain exactly as many saves as restores; on
the early-return error path the emitted save can stay unmatched (see the
counterexample). -/
theorem c1_balance_on_success (F : Features) (tree : Tree) (st st' : RState)
    (h : tree_to_stream F tree st = (st', none)) :
    ∃ δ, st'.content.ops = st.content.ops ++ δ ∧
      δ.count Op.save = δ.count Op.restore := by
  unfold tree_to_stream at h
  split at h
  · simp at h
  · rename_i hsv
    obtain ⟨hc1, hle⟩ := save_state_checked_ok _ _ hsv
    subst hc1
    simp only [] at h
    split at h
    · simp at h
    · rename_i st1 hrg
      injection h with h1 h2
      subst h1
      obtain ⟨hdq, δg, hops, hcnt⟩ := balance_group _ _ _ _ _ _ _ hrg
      refine ⟨[Op.save, Op.concatMat
          ((Transform.from_row 1 0 0 (-1) 0 tree.height).to_pdf_transform)] ++
          δg ++ [Op.restore], ?_, ?_⟩
      · simp only [Content.restore_state, hops, Content.transform]
        simp
      · simp [List.count_append, hcnt]

/-- Witness for C1 (amended) on a concrete empty 100×50 tree: the successful
run appends a balanced operator list. -/
theorem c1_witness :
    ∃ δ, (tree_to_stream wF ⟨100, 50, wT, false, []⟩ (wSt none)).1.content.ops =
        (wSt none).content.ops ++ δ ∧
      δ.count Op.save = δ.count Op.restore := by
  have h : tree_to_stream wF ⟨100, 50, wT, false, []⟩ (wSt none) =
      ({ wSt2c with content := wSt2c.content.restore_state }, none) := by
    simp [tree_to_stream, renderGroup, renderNodes, Content.save_state_checked,
      maxNesting, Content.transform, wT, wSt, wCtx, wSt2c, Transform.from_row,
      Transform.to_pdf_transform, Transform.mul, Content.new,
      Content.restore_state]
  have := c1_balance_on_success wF ⟨100, 50, wT, false, []⟩ (wSt none)
    ({ wSt2c with content := wSt2c.content.restore_state }) h
  rw [h]
  exact this

/-- C6: running the conversion with a resolver that always declines produces
output identical to running it with no resolver configured (same chunk, same
log, same result value, same allocator; only the stored options differ by the
configured resolver), and under a declining resolver with the image feature
enabled, dispatching an image node passes control to the internal image leaf
renderer. -/
theorem c6_declining_equals_no_resolver (F : Features) (tree : Tree)
    (chunk : List PdfObject) (ctx : Context) (log : List String) :
    (∃ chunk' ctx' log' res,
      tree_to_xobject F tree chunk (setProviderCtx ctx none) log =
        ((chunk', setProviderCtx ctx' none, log'), res) ∧
      tree_to_xobject F tree chunk (setProviderCtx ctx (some declineAll)) log =
        ((chunk', setProviderCtx ctx' (some declineAll), log'), res)) ∧
    (∀ (img : ImageData) (st : RState) (acc : Transform),
      st.ctx.options.image_provider = some declineAll → F.image = true →
      renderNode F (.image img) st acc = imageRender img st) := by
  constructor
  · exact prov_ttx F tree chunk ctx log
  · intro img st acc hprov hF
    simp [renderNode, hprov, declineAll, hF]

/-- Witness for C6 at a concrete one-image tree and concrete states. -/
theorem c6_witness :
    (∃ chunk' ctx' log' res,
      tree_to_xobject wF ⟨100, 50, wT, false, [Node.image wImg]⟩ []
          (setProviderCtx (wCtx none) none) [] =
        ((chunk', setProviderCtx ctx' none, log'), res) ∧
      tree_to_xobject wF ⟨100, 50, wT, false, [Node.image wImg]⟩ []
          (setProviderCtx (wCtx none) (some declineAll)) [] =
        ((chunk', setProviderCtx ctx' (some declineAll), log'), res)) ∧
    renderNode wF (.image wImg) (setProvider (wSt none) (some declineAll)) wT =
      imageRender wImg (setProvider (wSt none) (some declineAll)) :=
  ⟨(c6_declining_equals_no_resolver wF ⟨100, 50, wT, false, [Node.image wImg]⟩
      [] (wCtx none) []).1,
   (c6_declining_equals_no_resolver wF ⟨100, 50, wT, false, [Node.image wImg]⟩
      [] (wCtx none) []).2 wImg (setProvider (wSt none) (some declineAll)) wT
      rfl rfl⟩

/-- C7: with the text feature compiled in, a text node is rendered by the text
leaf renderer iff text embedding is enabled; otherwise it is rendered exactly
as the group node holding its pre-flattened outline paths, with the same
accumulated transform. -/
theorem c7_text_dispatch (F : Features) (td : TextData) (t : Transform)
    (iso : Bool) (ch : List Node) (st : RState) (acc : Transform)
    (hF : F.text = true) :
    (st.ctx.options.embed_text = true →
      renderNode F (.text td t iso ch) st acc = textRender td st) ∧
    (st.ctx.options.embed_text = false →
      renderNode F (.text td t iso ch) st acc =
        renderNode F (.group t iso ch) st acc) := by
  constructor <;> intro hE <;> simp [renderNode, hF, hE]

/-- Witness for C7 at a concrete text node, once with text embedding enabled
and once with it disabled. -/
theorem c7_witness :
    renderNode wF (.text ⟨7⟩ wT false []) (wSt none) wT =
      textRender ⟨7⟩ (wSt none) ∧
    renderNode wF (.text ⟨7⟩ wT false [])
        ⟨[], Content.new, ⟨1, ⟨false, false, none⟩⟩, ResourceContainer.new, []⟩
        wT =
      renderNode wF (.group wT false [])
        ⟨[], Content.new, ⟨1, ⟨false, false, none⟩⟩, ResourceContainer.new, []⟩
        wT :=
  ⟨(c7_text_dispatch wF ⟨7⟩ wT false [] (wSt none) wT rfl).1 rfl,
   (c7_text_dispatch wF ⟨7⟩ wT false []
      ⟨[], Content.new, ⟨1, ⟨false, false, none⟩⟩, ResourceContainer.new, []⟩
      wT rfl).2 rfl⟩

/-- C8: when the image (resp. text) leaf renderer is compiled out and no
external substitution occurs, dispatching the node logs a warning, emits
nothing, changes no other state, and returns success, so the sibling
traversal continues over the remaining nodes. -/
theorem c8_disabled_features_skip (F1 F2 : Features) (img : ImageData)
    (td : TextData) (t : Transform) (iso : Bool) (ch : List Node)
    (st : RState) (acc : Transform) (ns : List Node)
    (hF1 : F1.image = false)
    (hp : Option.bind st.ctx.options.image_provider (fun p => p img) = none)
    (hF2 : F2.text = false) :
    renderNode F1 (.image img) st acc =
      ({ st with log := st.log ++ [imageFeatureWarn] }, none) ∧
    renderNode F2 (.text td t iso ch) st acc =
      ({ st with log := st.log ++ [textFeatureWarn] }, none) ∧
    renderNodes F1 (.image img :: ns) st acc =
      renderNodes F1 ns { st with log := st.log ++ [imageFeatureWarn] } acc := by
  have h1 : renderNode F1 (.image img) st acc =
      ({ st with log := st.log ++ [imageFeatureWarn] }, none) := by
    simp [renderNode, hp, hF1]
  refine ⟨h1, ?_, ?_⟩
  · simp [renderNode, hF2]
  · simp [renderNodes, h1]

/-- Witness for C8 at a concrete image node and text node under the feature
set with both leaf renderers compiled out and no resolver configured. -/
theorem c8_witness :
    renderNode wFOff (.image wImg) (wSt none) wT =
      ({ wSt none with log := (wSt none).log ++ [imageFeatureWarn] }, none) ∧
    renderNode wFOff (.text ⟨7⟩ wT false []) (wSt none) wT =
      ({ wSt none with log := (wSt none).log ++ [textFeatureWarn] }, none) ∧
    renderNodes wFOff (.image wImg :: [Node.path ⟨3⟩]) (wSt none) wT =
      renderNodes wFOff [Node.path ⟨3⟩]
        { wSt none with log := (wSt none).log ++ [imageFeatureWarn] } wT :=
  c8_disabled_features_skip wFOff wFOff wImg ⟨7⟩ wT false [] (wSt none) wT
    [Node.path ⟨3⟩] rfl rfl rfl

end Svg2Pdf
